import Mathlib

set_option maxRecDepth 40000

/-!
Verification of the wayfinders episode-production pipeline core: the
build orchestrator (`build_final` in `src/wayfinders_cli/build.py`), the
timeline derivation (`render/timeline.py`), the frame compositor's
camera/asset logic (`render/compositor.py`) and frame assembly
(`render/frames.py`), shallowly embedded in Lean.

Python floats are modelled as rationals (ℚ), Python ints as ℤ/ℕ, file
paths as strings, and the filesystem / external collaborators as explicit
parameters.  Wall-clock timing (`time.monotonic`) is environmental and is
modelled as the constant 0 in `StageResult.duration_sec`; no claim
concerns durations.
-/

namespace Wayfinders

/-! ## Rounding (Python's built-in `round`, banker's rounding)

`round(x)` on a Python float rounds to the nearest integer, ties to the
even neighbour.  Modelled on ℚ. -/

def pyRound (q : ℚ) : ℤ :=
  let f : ℤ := ⌊q⌋
  let r : ℚ := q - (f : ℚ)
  if r < 1 / 2 then f
  else if 1 / 2 < r then f + 1
  else if f % 2 = 0 then f else f + 1

/-! ## Data model (`schema.py` / `render/ir.py`)

Only the fields the specified core reads are carried; field names follow
the source.  `CameraMoveIR`, `ActorIR`, `OverlayIR`, `AudioIR`, `ShotIR`,
`TimelineIR` mirror `render/ir.py`; `Shot` (shotlist entry), `Episode`
and `RenderSettings` mirror `schema.py`. -/

structure CameraMoveIR where
  move : String := "none"
  x0 : ℚ := 0
  x1 : ℚ := 0
  y0 : ℚ := 0
  y1 : ℚ := 0
  z0 : ℚ := 1
  z1 : ℚ := 1
  strength : ℚ := 0
  deriving DecidableEq

structure ActorIR where
  character : String
  pose : String
  expression : String := "neutral"
  x : Option ℚ := none
  y : Option ℚ := none
  scale : Option ℚ := none
  deriving DecidableEq

structure OverlayIR where
  id : String
  text : Option String := none
  x : Option ℚ := none
  y : Option ℚ := none
  deriving DecidableEq

structure AudioIR where
  dialogue : List String := []
  sfx : List String := []
  music : Option String := none
  deriving DecidableEq

structure ShotIR where
  id : String
  dur_sec : ℚ
  frame_count : ℤ
  bg : String
  camera : CameraMoveIR := {}
  actors : List ActorIR := []
  overlays : List OverlayIR := []
  fx : List String := []
  audio : AudioIR := {}
  deriving DecidableEq

structure TimelineIR where
  episode_id : String
  fps : ℤ
  resolution : ℤ × ℤ
  shots : List ShotIR
  deriving DecidableEq

structure RenderSettings where
  fps : ℤ := 24
  resolution : ℤ × ℤ := (1920, 1080)
  deriving DecidableEq

structure Episode where
  id : String
  render : RenderSettings := {}
  deriving DecidableEq

/-- One shotlist entry (`schema.py` shot), the source of a `ShotIR`. -/
structure Shot where
  id : String
  dur_sec : ℚ
  bg : String
  camera : CameraMoveIR := {}
  actors : List ActorIR := []
  overlays : List OverlayIR := []
  fx : List String := []
  audio : AudioIR := {}
  deriving DecidableEq

structure ShotList where
  shots : List Shot
  deriving DecidableEq

/-! ## Timeline derivation (`render/timeline.py`, `build_timeline_ir`)

For each shot: `frame_count = max(int(round(sh.dur_sec * ep.render.fps)), 1)`;
the remaining fields are copied unchanged into the IR shapes. -/

def shotToIR (fps : ℤ) (sh : Shot) : ShotIR :=
  { id := sh.id
    dur_sec := sh.dur_sec
    frame_count := max (pyRound (sh.dur_sec * (fps : ℚ))) 1
    bg := sh.bg
    camera := sh.camera
    actors := sh.actors
    overlays := sh.overlays
    fx := sh.fx
    audio := sh.audio }

def build_timeline_ir (ep : Episode) (sl : ShotList) : TimelineIR :=
  { episode_id := ep.id
    fps := ep.render.fps
    resolution := ep.render.resolution
    shots := sl.shots.map (shotToIR ep.render.fps) }

/-! ## Camera transform (`render/compositor.py`, `Compositor._apply_camera`)

The numeric core: the interpolation parameter `t` and the linear
interpolation of pan-x, pan-y and zoom (source lines 143–150).  The
oscillatory `shake` jitter and the raster resize/paste steps act on image
objects and are outside the claims stated here. -/

def cameraParamT (frame_idx total_frames : ℤ) : ℚ :=
  if total_frames ≤ 1 then 0
  else (frame_idx : ℚ) / ((total_frames : ℚ) - 1)

/-- `(pan_x, pan_y, zoom)` of `_apply_camera` before raster placement. -/
def cameraInterpolation (camera : CameraMoveIR) (frame_idx total_frames : ℤ) :
    ℚ × ℚ × ℚ :=
  let t := cameraParamT frame_idx total_frames
  (camera.x0 + (camera.x1 - camera.x0) * t,
   camera.y0 + (camera.y1 - camera.y0) * t,
   camera.z0 + (camera.z1 - camera.z0) * t)

/-! ## Asset resolution (`render/compositor.py`, `_load_bg` / `_load_cutout`)

The filesystem is modelled as a predicate `fs : String → Bool` on paths,
a Compositor's lazy caches as lists of the ids already loaded, and a
successfully decoded image by the id it was loaded under.  `MissingAssetError`
carries asset type, id and expected path exactly as the source's
constructor does. -/

structure MissingAssetError where
  asset_type : String
  asset_id : String
  path : String
  deriving DecidableEq

/-- `f"Missing {asset_type} asset: {asset_id} (expected at {path})"` -/
def missingAssetMessage (e : MissingAssetError) : String :=
  "Missing " ++ e.asset_type ++ " asset: " ++ e.asset_id ++
    " (expected at " ++ e.path ++ ")"

def bgPath (assets_dir bg_id : String) : String :=
  assets_dir ++ "/bg/" ++ bg_id ++ ".png"

def cutoutPath (assets_dir cutout_id : String) : String :=
  assets_dir ++ "/cutouts/" ++ cutout_id ++ ".png"

/-- `Compositor._load_bg`: cache hit, else load from `bg/{id}.png`, else
raise `MissingAssetError("background", ...)`. -/
def load_bg (fs : String → Bool) (bg_cache : List String)
    (assets_dir bg_id : String) : Except MissingAssetError String :=
  if bg_id ∈ bg_cache then .ok bg_id
  else if fs (bgPath assets_dir bg_id) then .ok bg_id
  else .error ⟨"background", bg_id, bgPath assets_dir bg_id⟩

/-- `Compositor._load_cutout`: cache hit on `{character}_{pose}_{expression}`,
else that file, else the `{character}_{pose}` fallback file, else raise
`MissingAssetError("cutout", ...)` carrying the fallback path. -/
def load_cutout (fs : String → Bool) (cutout_cache : List String)
    (assets_dir character pose expression : String) :
    Except MissingAssetError String :=
  let cutout_id := character ++ "_" ++ pose ++ "_" ++ expression
  if cutout_id ∈ cutout_cache then .ok cutout_id
  else if fs (cutoutPath assets_dir cutout_id) then .ok cutout_id
  else
    let fallback_id := character ++ "_" ++ pose
    if fs (cutoutPath assets_dir fallback_id) then .ok cutout_id
    else .error ⟨"cutout", cutout_id, cutoutPath assets_dir fallback_id⟩

/-- The asset-resolution skeleton of `Compositor.render_frame` on a fresh
Compositor (both caches empty): the background is resolved first, then each
actor's cutout in list order; the first `MissingAssetError` propagates. -/
def render_frame_assets (fs : String → Bool) (assets_dir : String)
    (shot : ShotIR) : Except MissingAssetError (String × List String) := do
  let bg ← load_bg fs [] assets_dir shot.bg
  let cutouts ← shot.actors.mapM
    (fun a => load_cutout fs [] assets_dir a.character a.pose a.expression)
  return (bg, cutouts)

/-! ## Frame assembly (`render/frames.py`, `render_frames_from_timeline`)

Shots are iterated in IR order, `frame_in_shot` from `0` to
`frame_count - 1`, and each rendered frame is persisted as
`frame_{frame_num:06d}.png` where `frame_num` is a single global counter
starting at 1 and incremented after every frame, never reset.  The model
returns the list of file names in the order they are written. -/

/-- Python `f"{n:06d}"` for a non-negative `n`. -/
def pad6 (n : ℕ) : String :=
  let s := toString n
  String.mk (List.replicate (6 - s.length) '0') ++ s

def frameName (frame_num : ℕ) : String :=
  "frame_" ++ pad6 frame_num ++ ".png"

/-- The two nested loops of `render_frames_from_timeline`, abstracted over
the per-shot `frame_count` list; `frame_num` is the global counter. -/
def framesLoop : List ℕ → ℕ → List String
  | [], _ => []
  | fc :: rest, frame_num =>
      (List.range fc).map (fun frame_in_shot => frameName (frame_num + frame_in_shot))
        ++ framesLoop rest (frame_num + fc)

/-- File names emitted by `render_frames_from_timeline` for a timeline
(Python `range(shot.frame_count)` on a negative int is empty, hence
`Int.toNat`; the IR validates `frame_count ≥ 1` anyway). -/
def render_frames_from_timeline (timeline : TimelineIR) : List String :=
  framesLoop (timeline.shots.map (fun s => s.frame_count.toNat)) 1

/-! ## Build orchestrator (`build.py`)

A stage's underlying call either returns a `(success, message)` pair or
raises; `StageOutcome` models both.  A stage function may also append
warning strings to the shared `BuildResult` and set its `output_path`
while running; `StageEffect` carries those side effects together with the
outcome.  The collaborators behind the stages (validator, planner,
generator, mixer, encoder, QC, bundler) are external, so a whole build is
parameterised by `behav : String → StageEffect`, the observed effect of
running each named stage. -/

structure StageResult where
  name : String
  success : Bool
  duration_sec : ℚ
  message : String := ""
  deriving DecidableEq

structure BuildResult where
  success : Bool := false
  stages_completed : List String := []
  output_path : Option String := none
  errors : List String := []
  warnings : List String := []
  stage_results : List StageResult := []
  deriving DecidableEq

inductive StageOutcome where
  | ok (success : Bool) (message : String)
  | exn (message : String)
  deriving DecidableEq

structure StageEffect where
  warnings : List String := []
  output_path : Option String := none
  outcome : StageOutcome
  deriving DecidableEq

/-- The warning/output side effects a stage function performs on the shared
`BuildResult` while it runs (before `_run_stage` records its outcome). -/
def applyEffect (eff : StageEffect) (result : BuildResult) : BuildResult :=
  { result with
    warnings := result.warnings ++ eff.warnings
    output_path := match eff.output_path with
      | some p => some p
      | none => result.output_path }

/-- `_run_stage(name, func, result)`: records a `StageResult`, appends the
stage name to `stages_completed` on success or `"{name}: {msg}"` to
`errors` on failure, converts a raised exception into a failed
`StageResult` carrying the exception's string, and returns the success
flag.  `duration_sec` (wall clock) is modelled as 0. -/
def _run_stage (name : String) (outcome : StageOutcome) (result : BuildResult) :
    Bool × BuildResult :=
  match outcome with
  | .ok success msg =>
      let result :=
        { result with stage_results := result.stage_results ++ [StageResult.mk name success 0 msg] }
      if success then
        (true, { result with stages_completed := result.stages_completed ++ [name] })
      else
        (false, { result with errors := result.errors ++ [name ++ ": " ++ msg] })
  | .exn msg =>
      (false,
        { result with
          stage_results := result.stage_results ++ [StageResult.mk name false 0 msg]
          errors := result.errors ++ [name ++ ": " ++ msg] })

/-- The fixed stage order of `build_final`. -/
def stageOrder : List String :=
  ["validate", "plan", "generate", "timeline", "render_frames",
   "audio_mix", "assemble_video", "qc_check", "provenance_bundle"]

/-- The `stages` list of `(name, enabled)` pairs built in `build_final`. -/
def stagesList (skip_validation skip_qc : Bool) : List (String × Bool) :=
  [("validate", !skip_validation),
   ("plan", true),
   ("generate", true),
   ("timeline", true),
   ("render_frames", true),
   ("audio_mix", true),
   ("assemble_video", true),
   ("qc_check", !skip_qc),
   ("provenance_bundle", true)]

def enabledStageNames (skip_validation skip_qc : Bool) : List String :=
  ((stagesList skip_validation skip_qc).filter (fun p => p.2)).map (fun p => p.1)

/-- The non-dry-run stage loop of `build_final`: a disabled stage is
recorded as a skip warning; an enabled stage runs through `_run_stage`
and a failure returns the accumulated result immediately (the build log
write is a file side effect, not modelled); falling off the end sets
`success := True`. -/
def runStages (behav : String → StageEffect) :
    List (String × Bool) → BuildResult → BuildResult
  | [], result => { result with success := true }
  | (stage_name, enabled) :: rest, result =>
      if enabled then
        let eff := behav stage_name
        match _run_stage stage_name eff.outcome (applyEffect eff result) with
        | (true, result1) => runStages behav rest result1
        | (false, result1) => result1
      else
        runStages behav rest
          { result with warnings := result.warnings ++ [stage_name ++ ": skipped (disabled)"] }

/-- The dry-run walk over the stage list. -/
def dryRunWalk : List (String × Bool) → BuildResult → BuildResult
  | [], result => result
  | (stage_name, enabled) :: rest, result =>
      if enabled then
        dryRunWalk rest
          { result with stages_completed := result.stages_completed ++ [stage_name] }
      else
        dryRunWalk rest
          { result with warnings := result.warnings ++ [stage_name ++ ": skipped (disabled)"] }

/-- `build_final(episode_yaml, force, skip_validation, skip_qc, dry_run, seed)`.
The episode path, `force` and `seed` only parameterise the collaborators,
which are abstracted into `behav`; `ffmpeg_available` is the result of the
`ffmpeg_exists()` presence check consulted by the dry run (and by the
audio/video stage functions, see `stage_audio_mix`). -/
def build_final (skip_validation skip_qc dry_run ffmpeg_available : Bool)
    (behav : String → StageEffect) : BuildResult :=
  let stages := stagesList skip_validation skip_qc
  if dry_run then
    let result := dryRunWalk stages {}
    let result :=
      if ffmpeg_available then result
      else { result with
             warnings := result.warnings ++ ["assemble_video: ffmpeg not available, would skip"] }
    { result with success := true }
  else
    runStages behav stages {}

/-! ## The special-case stage functions of `build.py` -/

/-- Python's substring test `needle in hay` on the underlying characters. -/
def charsContain (needle : List Char) : List Char → Bool
  | [] => needle.isEmpty
  | c :: rest => needle.isPrefixOf (c :: rest) || charsContain needle rest

def strContains (hay needle : String) : Bool :=
  charsContain needle.data hay.data

/-- `MixResult` of `render/audio.py` (`output_path` as a string path). -/
structure MixResult where
  success : Bool
  output_path : Option String := none
  tracks_used : ℤ := 0
  tracks_missing : List String := []
  message : String := ""
  deriving DecidableEq

/-- `stage_audio_mix`: skip (success) with a warning when ffmpeg is absent;
on mixer failure, a message containing `"no audio tracks"` is downgraded
to a warning and the stage succeeds, any other failure is a hard stage
failure; on mixer success with missing referenced tracks, a warning is
recorded and the stage still succeeds. -/
def stage_audio_mix (ffmpeg_available : Bool) (mix_result : MixResult) : StageEffect :=
  if !ffmpeg_available then
    { warnings := ["audio_mix: ffmpeg not available, skipping"]
      outcome := .ok true "skipped (ffmpeg not available)" }
  else if !mix_result.success then
    if strContains mix_result.message "no audio tracks" then
      { warnings := ["audio_mix: " ++ mix_result.message]
        outcome := .ok true mix_result.message }
    else
      { outcome := .ok false mix_result.message }
  else
    { warnings :=
        if mix_result.tracks_missing.isEmpty then []
        else ["audio_mix: " ++ toString mix_result.tracks_missing.length ++ " missing audio assets"]
      output_path := none
      outcome := .ok true mix_result.message }

/-- `stage_render_frames`: succeeds with a skip warning when Pillow is
unavailable, and succeeds with `"compositor not implemented, skipping"`
otherwise; it never touches the Compositor or the timeline. -/
def stage_render_frames (pillow_available : Bool) : StageEffect :=
  if !pillow_available then
    { warnings := ["render_frames: Pillow not available, skipping"]
      outcome := .ok true "skipped (Pillow not available)" }
  else
    { outcome := .ok true "compositor not implemented, skipping" }

/-- `QCResult` as consumed from `qc/checker.py`. -/
structure QCResult where
  passed : Bool
  errors : List String := []
  warnings : List String := []
  deriving DecidableEq

/-- The error summary of `stage_qc_check`: `"; ".join(errors[:3])` plus
`" (+{n-3} more)"` when more than 3 errors exist. -/
def qcErrSummary (errors : List String) : String :=
  let err_summary := String.intercalate "; " (errors.take 3)
  if 3 < errors.length then
    err_summary ++ " (+" ++ toString (errors.length - 3) ++ " more)"
  else err_summary

/-- `stage_qc_check` (the report-file writes are side effects, not
modelled): fails with the truncated error summary when the checker
reports not-passed, succeeds reporting the warning count otherwise. -/
def stage_qc_check (qc_result : QCResult) : StageEffect :=
  if !qc_result.passed then
    { outcome := .ok false ("QC failed: " ++ qcErrSummary qc_result.errors) }
  else
    { outcome := .ok true
        ("QC passed (" ++ toString qc_result.warnings.length ++ " warnings)") }

/-! ## Concrete data for witnesses and scenarios -/

/-- A 2-shot episode at the default 24 fps with durations 5.0 s and 3.0 s
(the end-to-end scenario of the spec). -/
def demoEpisode : Episode := { id := "ep001" }

def demoShotA : Shot := { id := "sh1", dur_sec := 5, bg := "bg_a" }

def demoShotB : Shot := { id := "sh2", dur_sec := 3, bg := "bg_b" }

def demoShotList : ShotList := { shots := [demoShotA, demoShotB] }

/-- A stage behaviour where every stage trivially succeeds. -/
def behavAllOk : String → StageEffect := fun _ => { outcome := .ok true "" }

/-- A filesystem with no files at all. -/
def emptyFs : String → Bool := fun _ => false

/-- A shot referencing a background that `emptyFs` does not carry. -/
def demoShotIR : ShotIR :=
  { id := "sh1", dur_sec := 5, frame_count := 120, bg := "bg_missing" }

/-! # Theorems -/

/-- Helper: `pyRound` of an integer-valued rational is that integer. -/
theorem pyRound_intCast (m : ℤ) : pyRound (m : ℚ) = m := by
  simp [pyRound]

/-- C2: every shot of the Timeline IR built by `build_timeline_ir` has
`frame_count = max(round(duration_sec * fps), 1)` for its source shot, and
that value is always ≥ 1 (also for durations arbitrarily close to 0). -/
theorem c2_frame_count_formula (ep : Episode) (sl : ShotList) (s : ShotIR)
    (hs : s ∈ (build_timeline_ir ep sl).shots) :
    (∃ src, src ∈ sl.shots ∧
        s.frame_count = max (pyRound (src.dur_sec * (ep.render.fps : ℚ))) 1)
    ∧ 1 ≤ s.frame_count := by
  simp only [build_timeline_ir, List.mem_map] at hs
  obtain ⟨src, hsrc, rfl⟩ := hs
  exact ⟨⟨src, hsrc, rfl⟩, le_max_right _ _⟩

/-- Witness for C2 at a concrete episode and shot list. -/
theorem c2_frame_count_formula_witness :
    shotToIR 24 demoShotA ∈ (build_timeline_ir demoEpisode demoShotList).shots
    ∧ ((∃ src, src ∈ demoShotList.shots ∧
          (shotToIR 24 demoShotA).frame_count =
            max (pyRound (src.dur_sec * (demoEpisode.render.fps : ℚ))) 1)
        ∧ 1 ≤ (shotToIR 24 demoShotA).frame_count) :=
  ⟨by simp [build_timeline_ir, demoEpisode, demoShotList],
   c2_frame_count_formula demoEpisode demoShotList (shotToIR 24 demoShotA)
     (by simp [build_timeline_ir, demoEpisode, demoShotList])⟩

/-- C3: the camera transform's interpolation parameter satisfies
`t = 0` at `frame_in_shot = 0`, `t = 1` at `frame_in_shot = N - 1` when
`N > 1`, and `t = 0` whenever `frame_count ≤ 1` (the guard, so the
division `frame_idx / (total_frames - 1)` never divides by zero); the
interpolated pan/zoom triple is `(x0, y0, z0)` at the start and
`(x1, y1, z1)` at the last frame. -/
theorem c3_camera_boundary (camera : CameraMoveIR)
    (frame_idx total_frames other_total : ℤ)
    (hN : 1 < total_frames) (hM : other_total ≤ 1) :
    cameraParamT frame_idx other_total = 0
    ∧ cameraParamT 0 total_frames = 0
    ∧ cameraParamT (total_frames - 1) total_frames = 1
    ∧ cameraInterpolation camera 0 total_frames = (camera.x0, camera.y0, camera.z0)
    ∧ cameraInterpolation camera (total_frames - 1) total_frames
        = (camera.x1, camera.y1, camera.z1) := by
  have hne : ((total_frames : ℚ) - 1) ≠ 0 := by
    have : (1 : ℚ) < (total_frames : ℚ) := by exact_mod_cast hN
    linarith
  have ht0 : cameraParamT 0 total_frames = 0 := by
    simp [cameraParamT]
  have ht1 : cameraParamT (total_frames - 1) total_frames = 1 := by
    rw [cameraParamT, if_neg (by omega)]
    push_cast
    exact div_self hne
  refine ⟨by simp [cameraParamT, hM], ht0, ht1, ?_, ?_⟩
  · simp [cameraInterpolation, ht0]
  · simp only [cameraInterpolation, ht1, Prod.mk.injEq]
    refine ⟨by ring, by ring, by ring⟩

/-- Witness for C3 at `N = 5`, `M = 1`, `frame_idx = 3`. -/
theorem c3_camera_boundary_witness :
    (1 : ℤ) < 5 ∧ (1 : ℤ) ≤ 1
    ∧ (cameraParamT 3 1 = 0
       ∧ cameraParamT 0 5 = 0
       ∧ cameraParamT (5 - 1) 5 = 1
       ∧ cameraInterpolation {} 0 5
           = (CameraMoveIR.x0 {}, CameraMoveIR.y0 {}, CameraMoveIR.z0 {})
       ∧ cameraInterpolation {} (5 - 1) 5
           = (CameraMoveIR.x1 {}, CameraMoveIR.y1 {}, CameraMoveIR.z1 {})) :=
  ⟨by norm_num, le_refl 1, c3_camera_boundary {} 3 5 1 (by norm_num) (le_refl 1)⟩

/-- C4: a stage whose underlying call raises is converted by the stage
wrapper `_run_stage` into a failed `StageResult` whose message is the
exception's string, with `"{stage}: {message}"` appended to `errors`, and
the wrapper returns `False` instead of letting the exception escape (in
the embedding an exception is the `StageOutcome.exn` value, and
`_run_stage` is a total function on it, so no exception ever propagates
out of `build_final`'s stage loop). -/
theorem c4_exception_converted (name msg : String) (result : BuildResult) :
    (_run_stage name (.exn msg) result).1 = false
    ∧ (_run_stage name (.exn msg) result).2.stage_results =
        result.stage_results ++ [StageResult.mk name false 0 msg]
    ∧ (_run_stage name (.exn msg) result).2.errors =
        result.errors ++ [name ++ ": " ++ msg]
    ∧ (_run_stage name (.exn msg) result).2.stages_completed = result.stages_completed
    ∧ (_run_stage name (.exn msg) result).2.warnings = result.warnings := by
  refine ⟨rfl, rfl, rfl, rfl, rfl⟩

/-- C5: `stage_audio_mix` (with ffmpeg present): a mixer failure whose
message contains `"no audio tracks"` is downgraded to a warning and the
stage succeeds; any other failure message is a hard stage failure; a
mixer success with missing referenced tracks records a warning but the
stage still succeeds (and so counts as completed through `_run_stage`). -/
theorem c5_audio_mix_policy (mix_result : MixResult) :
    (mix_result.success = false →
      strContains mix_result.message "no audio tracks" = true →
        (stage_audio_mix true mix_result).outcome = .ok true mix_result.message
        ∧ (stage_audio_mix true mix_result).warnings =
            ["audio_mix: " ++ mix_result.message]
        ∧ ∀ r : BuildResult,
            (_run_stage "audio_mix" (stage_audio_mix true mix_result).outcome r).2.stages_completed
              = r.stages_completed ++ ["audio_mix"])
    ∧ (mix_result.success = false →
        strContains mix_result.message "no audio tracks" = false →
          (stage_audio_mix true mix_result).outcome = .ok false mix_result.message
          ∧ (stage_audio_mix true mix_result).warnings = []
          ∧ ∀ r : BuildResult,
              (_run_stage "audio_mix" (stage_audio_mix true mix_result).outcome r).1 = false)
    ∧ (mix_result.success = true → mix_result.tracks_missing ≠ [] →
        (stage_audio_mix true mix_result).outcome = .ok true mix_result.message
        ∧ (stage_audio_mix true mix_result).warnings =
            ["audio_mix: " ++ toString mix_result.tracks_missing.length
              ++ " missing audio assets"]) := by
  refine ⟨fun hf hmsg => ?_, fun hf hmsg => ?_, fun hs hmiss => ?_⟩
  · simp [stage_audio_mix, hf, hmsg, _run_stage]
  · simp [stage_audio_mix, hf, hmsg, _run_stage]
  · simp [stage_audio_mix, hs, List.isEmpty_iff, hmiss]

/-- C8: `stage_qc_check` fails on a not-passed QC result with the message
`"QC failed: "` followed by the first 3 errors joined by `"; "` and, when
more than 3 errors exist, a `" (+{n-3} more)"` suffix — for exactly 5
errors, the first 3 plus `"+2 more"`; on a passed result it succeeds
reporting the warning count. -/
theorem c8_qc_truncation (qc_result : QCResult) :
    (qc_result.passed = false →
        (stage_qc_check qc_result).outcome =
          .ok false ("QC failed: " ++ qcErrSummary qc_result.errors))
    ∧ (qc_result.passed = true →
        (stage_qc_check qc_result).outcome =
          .ok true ("QC passed (" ++ toString qc_result.warnings.length ++ " warnings)"))
    ∧ (3 < qc_result.errors.length →
        qcErrSummary qc_result.errors =
          String.intercalate "; " (qc_result.errors.take 3)
            ++ " (+" ++ toString (qc_result.errors.length - 3) ++ " more)")
    ∧ (qc_result.errors.length ≤ 3 →
        qcErrSummary qc_result.errors =
          String.intercalate "; " (qc_result.errors.take 3))
    ∧ (qc_result.passed = false → qc_result.errors = ["e1", "e2", "e3", "e4", "e5"] →
        (stage_qc_check qc_result).outcome =
          .ok false "QC failed: e1; e2; e3 (+2 more)") := by
  refine ⟨fun hp => ?_, fun hp => ?_, fun hlen => ?_, fun hlen => ?_, fun hp herr => ?_⟩
  · simp [stage_qc_check, hp]
  · simp [stage_qc_check, hp]
  · simp [qcErrSummary, hlen]
  · simp [qcErrSummary, Nat.not_lt.2 hlen]
  · have h1 : (stage_qc_check qc_result).outcome =
        .ok false ("QC failed: " ++ qcErrSummary qc_result.errors) := by
      simp [stage_qc_check, hp]
    rw [h1, herr]
    decide

/-- C10: the `render_frames` stage always succeeds — with a skip warning
when Pillow is unavailable and with the message
`"compositor not implemented, skipping"` when it is available — and its
stage wrapper therefore never reports a failure; the definition takes
nothing but the Pillow flag, so no Compositor and no timeline is ever
consulted. -/
theorem c10_render_frames_never_fails (pillow_available : Bool) :
    (stage_render_frames pillow_available).outcome =
      .ok true (if pillow_available then "compositor not implemented, skipping"
                else "skipped (Pillow not available)")
    ∧ (stage_render_frames pillow_available).warnings =
        (if pillow_available then []
         else ["render_frames: Pillow not available, skipping"])
    ∧ ∀ r : BuildResult,
        (_run_stage "render_frames" (stage_render_frames pillow_available).outcome r).1 = true
        ∧ (_run_stage "render_frames" (stage_render_frames pillow_available).outcome r).2.errors
            = r.errors := by
  cases pillow_available <;>
    exact ⟨rfl, rfl, fun r => ⟨rfl, rfl⟩⟩

/-- C6: on a fresh Compositor, rendering a shot whose background file is
absent fails with a `MissingAssetError` of asset type `"background"`
whose message contains the offending id and the expected path; an actor
cutout absent under `(character, pose, expression)` falls back to the
`(character, pose)` file, and only when that is also absent does the
cutout-typed `MissingAssetError` arise (carrying the fallback path). -/
theorem c6_missing_asset_behavior (fs : String → Bool) (assets_dir : String)
    (shot : ShotIR) (hbg : fs (bgPath assets_dir shot.bg) = false) :
    render_frame_assets fs assets_dir shot =
      .error ⟨"background", shot.bg, bgPath assets_dir shot.bg⟩
    ∧ (∃ before between after,
        missingAssetMessage ⟨"background", shot.bg, bgPath assets_dir shot.bg⟩ =
          before ++ shot.bg ++ between ++ bgPath assets_dir shot.bg ++ after)
    ∧ (∀ character pose expression,
        fs (cutoutPath assets_dir (character ++ "_" ++ pose ++ "_" ++ expression)) = false →
        fs (cutoutPath assets_dir (character ++ "_" ++ pose)) = true →
        load_cutout fs [] assets_dir character pose expression =
          .ok (character ++ "_" ++ pose ++ "_" ++ expression))
    ∧ (∀ character pose expression,
        fs (cutoutPath assets_dir (character ++ "_" ++ pose ++ "_" ++ expression)) = false →
        fs (cutoutPath assets_dir (character ++ "_" ++ pose)) = false →
        load_cutout fs [] assets_dir character pose expression =
          .error ⟨"cutout", character ++ "_" ++ pose ++ "_" ++ expression,
                  cutoutPath assets_dir (character ++ "_" ++ pose)⟩) := by
  have hload : load_bg fs [] assets_dir shot.bg =
      .error ⟨"background", shot.bg, bgPath assets_dir shot.bg⟩ := by
    simp [load_bg, hbg]
  refine ⟨?_, ?_, ?_, ?_⟩
  · simp only [render_frame_assets, hload]
    rfl
  · refine ⟨"Missing " ++ "background" ++ " asset: ", " (expected at ", ")", ?_⟩
    simp [missingAssetMessage, String.append_assoc]
  · intro character pose expression hfull hfb
    simp [load_cutout, hfull, hfb]
  · intro character pose expression hfull hfb
    simp [load_cutout, hfull, hfb]

/-- Witness for C6: empty filesystem, `demoShotIR`'s background missing. -/
theorem c6_missing_asset_behavior_witness :
    emptyFs (bgPath "assets" demoShotIR.bg) = false
    ∧ (render_frame_assets emptyFs "assets" demoShotIR =
        .error ⟨"background", demoShotIR.bg, bgPath "assets" demoShotIR.bg⟩
      ∧ (∃ before between after,
          missingAssetMessage ⟨"background", demoShotIR.bg, bgPath "assets" demoShotIR.bg⟩ =
            before ++ demoShotIR.bg ++ between ++ bgPath "assets" demoShotIR.bg ++ after)
      ∧ (∀ character pose expression,
          emptyFs (cutoutPath "assets" (character ++ "_" ++ pose ++ "_" ++ expression)) = false →
          emptyFs (cutoutPath "assets" (character ++ "_" ++ pose)) = true →
          load_cutout emptyFs [] "assets" character pose expression =
            .ok (character ++ "_" ++ pose ++ "_" ++ expression))
      ∧ (∀ character pose expression,
          emptyFs (cutoutPath "assets" (character ++ "_" ++ pose ++ "_" ++ expression)) = false →
          emptyFs (cutoutPath "assets" (character ++ "_" ++ pose)) = false →
          load_cutout emptyFs [] "assets" character pose expression =
            .error ⟨"cutout", character ++ "_" ++ pose ++ "_" ++ expression,
                    cutoutPath "assets" (character ++ "_" ++ pose)⟩)) :=
  ⟨rfl, c6_missing_asset_behavior emptyFs "assets" demoShotIR rfl⟩

/-- Helper: the global frame counter enumerates a single consecutive range
across all shots, in shot order. -/
theorem framesLoop_eq_range (fcs : List ℕ) (n : ℕ) :
    framesLoop fcs n = (List.range fcs.sum).map (fun i => frameName (n + i)) := by
  induction fcs generalizing n with
  | nil => simp [framesLoop]
  | cons fc rest ih =>
      simp only [framesLoop, ih, List.sum_cons, List.range_add, List.map_append,
        List.map_map]
      congr 1
      ext i
      simp [Function.comp, Nat.add_assoc]

/-- Helper: the demo timeline's derived frame counts are `[120, 72]`. -/
theorem demo_frame_counts :
    (build_timeline_ir demoEpisode demoShotList).shots.map
      (fun s => s.frame_count.toNat) = [120, 72] := by
  have h120 : pyRound ((5 : ℚ) * 24) = 120 := by
    have h : ((5 : ℚ) * 24) = ((120 : ℤ) : ℚ) := by norm_num
    rw [h, pyRound_intCast]
  have h72 : pyRound ((3 : ℚ) * 24) = 72 := by
    have h : ((3 : ℚ) * 24) = ((72 : ℤ) : ℚ) := by norm_num
    rw [h, pyRound_intCast]
  simp [build_timeline_ir, demoEpisode, demoShotList, demoShotA, demoShotB,
    shotToIR, h120, h72]

/-- C9: frame assembly iterates shots in IR order and frames 0 to
`frame_count - 1` within each shot, with one global counter starting at 1
and never reset: the emitted names are exactly
`frame_{000001+i}.png` for `i` over the total frame count; on the 2-shot
24 fps demo (durations 5 s and 3 s, frame counts 120 and 72) it emits 192
files `frame_000001.png` … `frame_000192.png`, the second shot starting
at `frame_000121.png`. -/
theorem c9_global_frame_counter :
    (∀ timeline : TimelineIR,
        render_frames_from_timeline timeline =
          (List.range ((timeline.shots.map (fun s => s.frame_count.toNat)).sum)).map
            (fun i => frameName (1 + i)))
    ∧ (build_timeline_ir demoEpisode demoShotList).shots.map (fun s => s.frame_count.toNat)
        = [120, 72]
    ∧ (render_frames_from_timeline (build_timeline_ir demoEpisode demoShotList)).length = 192
    ∧ (render_frames_from_timeline (build_timeline_ir demoEpisode demoShotList))[0]?
        = some "frame_000001.png"
    ∧ (render_frames_from_timeline (build_timeline_ir demoEpisode demoShotList))[120]?
        = some "frame_000121.png"
    ∧ (render_frames_from_timeline (build_timeline_ir demoEpisode demoShotList))[191]?
        = some "frame_000192.png" := by
  have hdemo : render_frames_from_timeline (build_timeline_ir demoEpisode demoShotList)
      = framesLoop [120, 72] 1 := by
    rw [render_frames_from_timeline, demo_frame_counts]
  refine ⟨fun timeline => framesLoop_eq_range _ 1, demo_frame_counts, ?_, ?_, ?_, ?_⟩
  · rw [hdemo]; decide
  · rw [hdemo]; decide
  · rw [hdemo]; decide
  · rw [hdemo]; decide

/-- Helper: characterization of the stage loop.  Over any stage list and
accumulated result, the loop appends a block `ran` of stage records such
that: completed names are exactly the successful records' names, the
executed names are a prefix of the enabled names, and only the last
executed record can be a failure (the loop returns immediately after it). -/
theorem runStages_characterization (behav : String → StageEffect) :
    ∀ (stgs : List (String × Bool)) (result : BuildResult),
      ∃ ran : List StageResult,
        (runStages behav stgs result).stage_results = result.stage_results ++ ran
        ∧ (runStages behav stgs result).stages_completed =
            result.stages_completed ++ (ran.filter (fun s => s.success)).map (fun s => s.name)
        ∧ ran.map (fun s => s.name) <+: (stgs.filter (fun p => p.2)).map (fun p => p.1)
        ∧ (ran.filter (fun s => s.success)).map (fun s => s.name) <+:
            (stgs.filter (fun p => p.2)).map (fun p => p.1)
        ∧ ∀ i sr, ran[i]? = some sr → sr.success = false → i + 1 = ran.length := by
  intro stgs
  induction stgs with
  | nil =>
      intro result
      refine ⟨[], by simp [runStages], by simp [runStages], ⟨_, rfl⟩, ⟨_, rfl⟩, ?_⟩
      intro i sr hsr
      simp at hsr
  | cons head rest ih =>
      obtain ⟨stage_name, enabled⟩ := head
      intro result
      cases enabled with
      | false =>
          obtain ⟨ran, h1, h2, h3, h4, h5⟩ :=
            ih { result with
                 warnings := result.warnings ++ [stage_name ++ ": skipped (disabled)"] }
          exact ⟨ran, by simpa [runStages] using h1, by simpa [runStages] using h2,
            by simpa using h3, by simpa using h4, h5⟩
      | true =>
          rcases houtcome : (behav stage_name).outcome with ⟨s, m⟩ | ⟨m⟩
          · cases s with
            | true =>
                obtain ⟨ran, h1, h2, h3, h4, h5⟩ :=
                  ih { result with
                       stages_completed := result.stages_completed ++ [stage_name]
                       output_path :=
                         (match (behav stage_name).output_path with
                          | some p => some p
                          | none => result.output_path)
                       warnings := result.warnings ++ (behav stage_name).warnings
                       stage_results := result.stage_results
                         ++ [StageResult.mk stage_name true 0 m] }
                simp only [List.append_assoc, List.singleton_append] at h1 h2
                refine ⟨StageResult.mk stage_name true 0 m :: ran, ?_, ?_, ?_, ?_, ?_⟩
                · simpa [runStages, houtcome, _run_stage, applyEffect] using h1
                · simpa [runStages, houtcome, _run_stage, applyEffect,
                    List.append_assoc] using h2
                · obtain ⟨t, ht⟩ := h3
                  exact ⟨t, by simp [ht]⟩
                · obtain ⟨t, ht⟩ := h4
                  exact ⟨t, by simp [ht]⟩
                · intro i sr hsr hfail
                  cases i with
                  | zero =>
                      simp only [List.getElem?_cons_zero, Option.some.injEq] at hsr
                      rw [← hsr] at hfail
                      simp at hfail
                  | succ j =>
                      simp only [List.getElem?_cons_succ] at hsr
                      have := h5 j sr hsr hfail
                      simp [List.length_cons]
                      omega
            | false =>
                refine ⟨[StageResult.mk stage_name false 0 m], ?_, ?_, ?_, ?_, ?_⟩
                · simp [runStages, houtcome, _run_stage, applyEffect]
                · simp [runStages, houtcome, _run_stage, applyEffect]
                · exact ⟨(rest.filter (fun p => p.2)).map (fun p => p.1), by simp⟩
                · exact ⟨((stage_name, true) :: rest).filter (fun p => p.2)
                          |>.map (fun p => p.1), by simp⟩
                · intro i sr hsr _
                  cases i with
                  | zero => rfl
                  | succ j => simp at hsr
          · refine ⟨[StageResult.mk stage_name false 0 m], ?_, ?_, ?_, ?_, ?_⟩
            · simp [runStages, houtcome, _run_stage, applyEffect]
            · simp [runStages, houtcome, _run_stage, applyEffect]
            · exact ⟨(rest.filter (fun p => p.2)).map (fun p => p.1), by simp⟩
            · exact ⟨((stage_name, true) :: rest).filter (fun p => p.2)
                      |>.map (fun p => p.1), by simp⟩
            · intro i sr hsr _
              cases i with
              | zero => rfl
              | succ j => simp at hsr

/-- C1: in any non-dry-run build, `stages_completed` is a prefix of the
fixed order `[validate, plan, generate, timeline, render_frames,
audio_mix, assemble_video, qc_check, provenance_bundle]` filtered to the
enabled stages, the executed stage records are themselves such a prefix,
`stages_completed` is exactly the successful records' names, and only the
last executed record can be a failure — so no stage after the first
failure ever appears in `stages_completed` or `stage_results` (the
enabled names being distinct). -/
theorem c1_stage_order_invariant (skip_validation skip_qc ffmpeg_available : Bool)
    (behav : String → StageEffect) :
    (build_final skip_validation skip_qc false ffmpeg_available behav).stages_completed
      <+: enabledStageNames skip_validation skip_qc
    ∧ (build_final skip_validation skip_qc false ffmpeg_available behav).stage_results.map
        (fun s => s.name) <+: enabledStageNames skip_validation skip_qc
    ∧ (build_final skip_validation skip_qc false ffmpeg_available behav).stages_completed
        = ((build_final skip_validation skip_qc false ffmpeg_available behav).stage_results.filter
            (fun s => s.success)).map (fun s => s.name)
    ∧ (∀ i sr,
        (build_final skip_validation skip_qc false ffmpeg_available behav).stage_results[i]?
          = some sr →
        sr.success = false →
        i + 1 = (build_final skip_validation skip_qc false ffmpeg_available behav).stage_results.length)
    ∧ (stagesList skip_validation skip_qc).map (fun p => p.1) = stageOrder
    ∧ (enabledStageNames skip_validation skip_qc).Nodup := by
  obtain ⟨ran, h1, h2, h3, h4, h5⟩ :=
    runStages_characterization behav (stagesList skip_validation skip_qc) {}
  have hb : build_final skip_validation skip_qc false ffmpeg_available behav
      = runStages behav (stagesList skip_validation skip_qc) {} := rfl
  have hnil1 : (({} : BuildResult)).stage_results = [] := rfl
  have hnil2 : (({} : BuildResult)).stages_completed = [] := rfl
  rw [hnil1, List.nil_append] at h1
  rw [hnil2, List.nil_append] at h2
  refine ⟨?_, ?_, ?_, ?_, ?_, ?_⟩
  · rw [hb, h2]
    exact h4
  · rw [hb, h1]
    exact h3
  · rw [hb, h1, h2]
  · intro i sr hsr hfail
    rw [hb, h1] at hsr ⊢
    exact h5 i sr hsr hfail
  · cases skip_validation <;> cases skip_qc <;> rfl
  · cases skip_validation <;> cases skip_qc <;> decide

/-- C7 counterexample: the dry run does consult a collaborator — the
encoder presence check `ffmpeg_exists()` — and its result depends on that
check's answer: with the encoder absent an extra warning
`"assemble_video: ffmpeg not available, would skip"` appears, so the
claim's "no collaborator is invoked" (the dry-run result depends on
nothing external) is false. -/
theorem c7_dry_run_counterexample :
    build_final false false true false behavAllOk
      ≠ build_final false false true true behavAllOk
    ∧ "assemble_video: ffmpeg not available, would skip"
        ∈ (build_final false false true false behavAllOk).warnings := by
  constructor
  · decide
  · decide

/-- C7 (amended): in dry-run mode every enabled stage is appended to
`stages_completed` and every disabled stage yields the warning
`"{stage}: skipped (disabled)"`; no *stage* collaborator is invoked (the
result is identical for any stage behaviours), though the encoder
presence check is still consulted and, when the encoder is absent, adds
the advisory warning `"assemble_video: ffmpeg not available, would
skip"`; the result succeeds unconditionally; with
`skip_validation = skip_qc = True`, `stages_completed` excludes
`"validate"` and `"qc_check"` and the two skip warnings are present. -/
theorem c7_dry_run_amended (skip_validation skip_qc ffmpeg_available : Bool)
    (behav behav2 : String → StageEffect) :
    build_final skip_validation skip_qc true ffmpeg_available behav
      = build_final skip_validation skip_qc true ffmpeg_available behav2
    ∧ (build_final skip_validation skip_qc true ffmpeg_available behav).stages_completed
        = enabledStageNames skip_validation skip_qc
    ∧ (build_final skip_validation skip_qc true ffmpeg_available behav).warnings
        = ((stagesList skip_validation skip_qc).filter (fun p => !p.2)).map
            (fun p => p.1 ++ ": skipped (disabled)")
          ++ (if ffmpeg_available then []
              else ["assemble_video: ffmpeg not available, would skip"])
    ∧ (build_final skip_validation skip_qc true ffmpeg_available behav).success = true
    ∧ (build_final true true true ffmpeg_available behav).stages_completed
        = ["plan", "generate", "timeline", "render_frames", "audio_mix",
           "assemble_video", "provenance_bundle"]
    ∧ "validate: skipped (disabled)"
        ∈ (build_final true true true ffmpeg_available behav).warnings
    ∧ "qc_check: skipped (disabled)"
        ∈ (build_final true true true ffmpeg_available behav).warnings := by
  cases skip_validation <;> cases skip_qc <;> cases ffmpeg_available <;>
    exact ⟨rfl, rfl, rfl, rfl, rfl, List.Mem.head _, List.Mem.tail _ (List.Mem.head _)⟩

end Wayfinders
